import Mathlib

/-!
Shallow embedding of the training and evaluation scripts of the
polyp-segmentation repository (src/train.py and src/eval.py), together
with theorems settling the behavioural claims about the checkpoint /
resume logic of the training loop and the metric / visualization
pipeline of the evaluation entry point.

Real-valued quantities (losses, metric values) are modelled as rationals;
none of the claims below depends on floating-point rounding, only on
copies, comparisons, `min`, and division-by-zero behaviour, all of which
agree between the two representations.  Python division by zero raises
`ZeroDivisionError`; this is modelled by an `Except` result.
-/

deriving instance DecidableEq for Except

namespace PolypSeg

/-- Errors that the Python scripts can raise and that are relevant to the
claims: dictionary access on a missing key, `raise ValueError`, and
division by zero. -/
inductive PyError
  | keyError (key : String)
  | valueError (msg : String)
  | zeroDivisionError
  deriving Repr, DecidableEq

/-- Contents of one persisted checkpoint file, as a dictionary whose keys
may individually be absent.  `state_dict` and `optimizer` blobs are
opaque and modelled as natural-number tags.  train.py lines 193-203 save
exactly the keys step, epoch, arch, state_dict, best_loss, optimizer. -/
structure StoredCheckpoint where
  step : Option Nat := none
  epoch : Option Nat := none
  arch : Option String := none
  state_dict : Option Nat := none
  best_loss : Option ℚ := none
  optimizer : Option Nat := none
  deriving Repr, DecidableEq

/-- The file system visible to the scripts: a finite map from paths to
checkpoint files. -/
structure FileSystem where
  files : List (String × StoredCheckpoint)
  deriving Repr, DecidableEq

/-- Embeds os.path.isfile combined with torch.load: the stored record at
a path, if the file exists. -/
def FileSystem.lookup (fs : FileSystem) (path : String) : Option StoredCheckpoint :=
  List.lookup path fs.files

/-- Python dictionary access d[k]: raises KeyError when the key is
absent. -/
def dictGet {α : Type} (v : Option α) (key : String) : Except PyError α :=
  match v with
  | some x => .ok x
  | none => .error (.keyError key)

/-- The two model classes selectable in train.py lines 48-52 and
eval.py lines 114-120. -/
inductive ModelKind
  | resUnet
  | resUnetPlusPlus
  deriving Repr, DecidableEq

/-- Embeds the architecture choice made from the RESNET_PLUS_PLUS config
flag (train.py lines 48-52, eval.py lines 114-120). -/
def selectModel (resnetPlusPlus : Bool) : ModelKind :=
  if resnetPlusPlus then .resUnetPlusPlus else .resUnet

/-- Configuration keys of the hp object that the embedded control flow
reads. -/
structure TrainConfig where
  validation_interval : Nat
  checkpoints : String
  RESNET_PLUS_PLUS : Bool
  deriving Repr, DecidableEq

/-- Outcome of the resume block of train.py: the starting epoch, the
best loss so far, and the (optionally loaded) model and optimizer
blobs. -/
structure ResumeOutcome where
  start_epoch : Nat
  best_loss : ℚ
  model_state : Option Nat
  optimizer_state : Option Nat
  deriving Repr, DecidableEq

/-- Starting parameters of train.py lines 66-68: best_loss = 999,
start_epoch = 0, freshly initialised model and optimizer. -/
def freshResume : ResumeOutcome :=
  { start_epoch := 0, best_loss := 999, model_state := none, optimizer_state := none }

/-- Embeds the resume block of train.py lines 70-86.  A falsy (empty)
resume string skips the block.  When the file exists, the code reads the
keys epoch, best_loss, state_dict, optimizer in that order (each a
dictionary access that raises KeyError if absent); the stored step key is
never read.  When the file does not exist, the code only prints a
message and continues with the fresh starting parameters. -/
def trainResume (fs : FileSystem) (resume : String) : Except PyError ResumeOutcome :=
  if resume = "" then .ok freshResume
  else
    match fs.lookup resume with
    | some checkpoint => do
        let start_epoch ← dictGet checkpoint.epoch "epoch"
        let best_loss ← dictGet checkpoint.best_loss "best_loss"
        let state_dict ← dictGet checkpoint.state_dict "state_dict"
        let optimizer ← dictGet checkpoint.optimizer "optimizer"
        .ok { start_epoch := start_epoch, best_loss := best_loss,
              model_state := some state_dict, optimizer_state := some optimizer }
    | none => .ok freshResume

/-- Python "%04d": decimal digits zero-padded on the left to width at
least 4. -/
def fmt04d (n : Nat) : String :=
  let s := toString n
  String.mk (List.replicate (4 - s.length) '0') ++ s

/-- Embeds train.py lines 188-190: os.path.join(checkpoint_dir,
"%s_checkpoint_%04d.pt" % (name, step)). -/
def checkpointSavePath (checkpoint_dir name : String) (step : Nat) : String :=
  checkpoint_dir ++ "/" ++ name ++ "_checkpoint_" ++ fmt04d step ++ ".pt"

/-- Embeds the dictionary saved by train.py lines 193-203.  The arch key
is the literal string "ResUnet" in the source, independent of the model
in use. -/
def mkSavedCheckpoint (step epoch : Nat) (modelState : Nat) (best_loss : ℚ)
    (optimState : Nat) : StoredCheckpoint :=
  { step := some step, epoch := some epoch, arch := some "ResUnet",
    state_dict := some modelState, best_loss := some best_loss,
    optimizer := some optimState }

/-- Mutable state of the training loop of train.py main: the step
counter, the best loss so far, the opaque model and optimizer blobs, the
sequence of validation losses fed to the ReduceLROnPlateau scheduler, and
the checkpoint files written so far (path and contents, in write
order). -/
structure LoopState where
  step : Nat
  best_loss : ℚ
  modelState : Nat
  optimState : Nat
  schedCalls : List ℚ
  saved : List (String × StoredCheckpoint)
  deriving Repr, DecidableEq

/-- Loop state at the top of the epoch loop (train.py line 134 sets
step = 0 unconditionally; best_loss and the blobs come from the resume
block). -/
def initLoopState (r : ResumeOutcome) : LoopState :=
  { step := 0, best_loss := r.best_loss,
    modelState := r.model_state.getD 0, optimState := r.optimizer_state.getD 0,
    schedCalls := [], saved := [] }

/-- Embeds one iteration of the inner batch loop, train.py lines
149-206.  The forward/backward pass only mutates the opaque model blob
and is dropped; the observable control flow is lines 183-206: when
step % validation_interval == 0 the code runs validation (its returned
loss at step k is the environment input vloss k), feeds that loss to the
scheduler, computes the save path from the experiment name and the step,
updates best_loss = min(valid_loss, best_loss), and saves a checkpoint
dictionary holding the updated best_loss.  The step counter then
advances by one. -/
def processBatch (vi : Nat) (checkpoint_dir name : String) (epoch : Nat)
    (vloss : Nat → ℚ) (s : LoopState) : LoopState :=
  if s.step % vi = 0 then
    let v := vloss s.step
    let bl := min v s.best_loss
    { s with
      step := s.step + 1
      best_loss := bl
      schedCalls := s.schedCalls ++ [v]
      saved := s.saved ++ [(checkpointSavePath checkpoint_dir name s.step,
                            mkSavedCheckpoint s.step epoch s.modelState bl s.optimState)] }
  else
    { s with step := s.step + 1 }

/-- One epoch of the training loop: nBatches iterations of the batch
loop (train.py lines 148-206). -/
def runEpoch (vi : Nat) (checkpoint_dir name : String) (epoch : Nat)
    (vloss : Nat → ℚ) (nBatches : Nat) (s : LoopState) : LoopState :=
  (List.range nBatches).foldl (fun st _ => processBatch vi checkpoint_dir name epoch vloss st) s

/-- Embeds train.py lines 134-206: step = 0, then
for epoch in range(start_epoch, num_epochs). -/
def runTraining (vi : Nat) (checkpoint_dir name : String)
    (start_epoch num_epochs : Nat) (vloss : Nat → ℚ) (nBatches : Nat)
    (r : ResumeOutcome) : LoopState :=
  (List.range' start_epoch (num_epochs - start_epoch)).foldl
    (fun st ep => runEpoch vi checkpoint_dir name ep vloss nBatches st)
    (initLoopState r)

/-- Embeds train.py main (lines 40-206) with the data pipeline
abstracted: model selection from the config flag, checkpoint_dir =
hp.checkpoints/name, the resume block, then the epoch/batch loop.
vloss k is the validation loss the validation pass returns when invoked
at step k; nBatches is the number of batches per epoch. -/
def mainTrain (hp : TrainConfig) (num_epochs : Nat) (resume name : String)
    (fs : FileSystem) (vloss : Nat → ℚ) (nBatches : Nat) :
    Except PyError (ModelKind × LoopState) :=
  match trainResume fs resume with
  | .error e => .error e
  | .ok r =>
      .ok (selectModel hp.RESNET_PLUS_PLUS,
           runTraining hp.validation_interval (hp.checkpoints ++ "/" ++ name) name
             r.start_epoch num_epochs vloss nBatches r)

/-- The best_loss values of the checkpoint files written by a run, in
write order. -/
def savedBestLosses (s : LoopState) : List ℚ :=
  s.saved.filterMap (fun p => p.2.best_loss)

/-- Per-batch quantities produced by the model and the metric functions
on one test batch in eval.py lines 41-66: the batch size inputs.size(0),
the batch dice coefficient, the batch hd95 value, the count of equal
pixels (preds == labels).float().sum().item(), and torch.numel(labels). -/
structure EvalBatch where
  size : Nat
  dice : ℚ
  hd95 : ℚ
  correct : ℚ
  numel : Nat
  deriving Repr, DecidableEq

/-- The running totals of eval.py lines 31-35. -/
structure EvalTotals where
  dice_sum : ℚ := 0
  hd95_sum : ℚ := 0
  pixel_correct : ℚ := 0
  pixel_total : Nat := 0
  num_samples : Nat := 0
  deriving Repr, DecidableEq

/-- Embeds the accumulation of eval.py lines 60-66: dice and hd95 are
weighted by the batch size, pixel counts and the sample count are
added. -/
def accumBatch (t : EvalTotals) (b : EvalBatch) : EvalTotals :=
  { dice_sum := t.dice_sum + b.dice * (b.size : ℚ),
    hd95_sum := t.hd95_sum + b.hd95 * (b.size : ℚ),
    pixel_correct := t.pixel_correct + b.correct,
    pixel_total := t.pixel_total + b.numel,
    num_samples := t.num_samples + b.size }

/-- Python division a / b: raises ZeroDivisionError on a zero
denominator (it never silently yields NaN for ordinary numbers). -/
def pyDiv (a b : ℚ) : Except PyError ℚ :=
  if b = 0 then .error .zeroDivisionError else .ok (a / b)

/-- Embeds the visualization writes of eval.py lines 69-91 for one
batch: for each i in range(inputs.size(0)) one image file named
result_folder/sample_{batch_idx * inputs.size(0) + i}.png — the index is
computed from the size of the CURRENT batch. -/
def batchFilenames (result_folder : String) (batch_idx size : Nat) : List String :=
  (List.range size).map fun i =>
    result_folder ++ "/sample_" ++ toString (batch_idx * size + i) ++ ".png"

/-- Embeds eval.py evaluate (lines 24-97): accumulate the totals and
write one visualization file per sample over all batches, then compute
avg_dice = dice_sum / num_samples, avg_hd95 = hd95_sum / num_samples and
accuracy = pixel_correct / pixel_total.  The result is the triple of
averages together with the list of visualization file names in write
order; each division raises ZeroDivisionError if its denominator is
zero. -/
def evaluate (batches : List EvalBatch) (result_folder : String) :
    Except PyError (ℚ × ℚ × ℚ × List String) := do
  let t := batches.foldl accumBatch {}
  let files := batches.enum.flatMap (fun p => batchFilenames result_folder p.1 p.2.size)
  let avg_dice ← pyDiv t.dice_sum (t.num_samples : ℚ)
  let avg_hd95 ← pyDiv t.hd95_sum (t.num_samples : ℚ)
  let accuracy ← pyDiv t.pixel_correct (t.pixel_total : ℚ)
  .ok (avg_dice, avg_hd95, accuracy, files)

/-- Embeds the checkpoint-loading block of eval.py lines 123-129: if the
path is not a file, raise ValueError; otherwise load, read the required
state_dict key (KeyError if absent), and display the epoch via
checkpoint.get("epoch", "N/A"), which tolerates an absent key.  Returns
the loaded blob and the displayed epoch text. -/
def evalLoadCheckpoint (fs : FileSystem) (modelPath : String) :
    Except PyError (Nat × String) :=
  match fs.lookup modelPath with
  | some checkpoint => do
      let sd ← dictGet checkpoint.state_dict "state_dict"
      .ok (sd, (checkpoint.epoch.map toString).getD "N/A")
  | none => .error (.valueError ("Checkpoint not found: " ++ modelPath))

/-! ## Invariant machinery for the training loop -/

/-- Preservation of a predicate through List.foldl. -/
theorem foldl_preserve {α β : Type} (P : α → Prop) (f : α → β → α)
    (hf : ∀ a b, P a → P (f a b)) :
    ∀ (l : List β) (a : α), P a → P (List.foldl f a l)
  | [], _, h => h
  | b :: t, a, h => foldl_preserve P f hf t (f a b) (hf a b h)

/-- Invariant: the best_loss values of the checkpoints written so far are
pairwise non-increasing in write order, and the live best_loss is a lower
bound of all of them. -/
def SavedInv (s : LoopState) : Prop :=
  (savedBestLosses s).Pairwise (fun a b => b ≤ a) ∧
  ∀ x ∈ savedBestLosses s, s.best_loss ≤ x

theorem savedInv_processBatch (vi : Nat) (dir name : String) (epoch : Nat)
    (vloss : Nat → ℚ) (s : LoopState) (h : SavedInv s) :
    SavedInv (processBatch vi dir name epoch vloss s) := by
  obtain ⟨h1, h2⟩ := h
  unfold processBatch
  split
  · constructor
    · simp only [savedBestLosses, mkSavedCheckpoint, List.filterMap_append,
        List.filterMap_cons, List.filterMap_nil] at h1 ⊢
      rw [List.pairwise_append]
      refine ⟨h1, List.pairwise_singleton _ _, ?_⟩
      intro a ha b hb
      rw [List.mem_singleton] at hb
      subst hb
      exact le_trans (min_le_right _ _) (h2 a ha)
    · intro x hx
      simp only [savedBestLosses, mkSavedCheckpoint, List.filterMap_append,
        List.filterMap_cons, List.filterMap_nil, List.mem_append,
        List.mem_singleton] at hx ⊢
      rcases hx with hx | hx
      · exact le_trans (min_le_right _ _) (h2 x hx)
      · subst hx; exact le_refl _
  · exact ⟨h1, h2⟩

theorem savedInv_runEpoch (vi : Nat) (dir name : String) (epoch : Nat)
    (vloss : Nat → ℚ) (nBatches : Nat) (s : LoopState) (h : SavedInv s) :
    SavedInv (runEpoch vi dir name epoch vloss nBatches s) :=
  foldl_preserve SavedInv _
    (fun s _ hs => savedInv_processBatch vi dir name epoch vloss s hs) _ s h

theorem savedInv_runTraining (vi : Nat) (dir name : String)
    (start_epoch num_epochs : Nat) (vloss : Nat → ℚ) (nBatches : Nat)
    (r : ResumeOutcome) :
    SavedInv (runTraining vi dir name start_epoch num_epochs vloss nBatches r) := by
  unfold runTraining
  apply foldl_preserve SavedInv _
    (fun s ep hs => savedInv_runEpoch vi dir name ep vloss nBatches s hs)
  refine ⟨List.Pairwise.nil, ?_⟩
  intro x hx
  simp [savedBestLosses, initLoopState] at hx

/-- Invariant: every checkpoint written so far carries
arch = "ResUnet". -/
def ArchInv (s : LoopState) : Prop :=
  ∀ p ∈ s.saved, p.2.arch = some "ResUnet"

theorem archInv_processBatch (vi : Nat) (dir name : String) (epoch : Nat)
    (vloss : Nat → ℚ) (s : LoopState) (h : ArchInv s) :
    ArchInv (processBatch vi dir name epoch vloss s) := by
  unfold processBatch
  split
  · intro p hp
    simp only [List.mem_append, List.mem_singleton] at hp
    rcases hp with hp | hp
    · exact h p hp
    · subst hp; rfl
  · exact h

theorem archInv_runTraining (vi : Nat) (dir name : String)
    (start_epoch num_epochs : Nat) (vloss : Nat → ℚ) (nBatches : Nat)
    (r : ResumeOutcome) :
    ArchInv (runTraining vi dir name start_epoch num_epochs vloss nBatches r) := by
  unfold runTraining
  apply foldl_preserve ArchInv _
    (fun s ep hs =>
      foldl_preserve ArchInv _
        (fun s _ hs => archInv_processBatch vi dir name ep vloss s hs) _ s hs)
  intro p hp
  simp [initLoopState] at hp

/-! ## Claim theorems -/

/-- C3: in every training run the loop updates best_loss only by
best_loss = min(valid_loss, best_loss) (train.py line 192) and writes the
updated value into each checkpoint, so the stored best_loss values of the
checkpoint records of a run, in write order, are monotonically
non-increasing.  Stated for the loop of mainTrain with an arbitrary
resume outcome r (which is every run: mainTrain returns exactly
runTraining applied to the outcome of the resume block). -/
theorem best_loss_nonincreasing (vi : Nat) (dir name : String)
    (start_epoch num_epochs : Nat) (vloss : Nat → ℚ) (nBatches : Nat)
    (r : ResumeOutcome) :
    List.Chain' (fun a b => b ≤ a)
      (savedBestLosses (runTraining vi dir name start_epoch num_epochs vloss nBatches r)) :=
  (savedInv_runTraining vi dir name start_epoch num_epochs vloss nBatches r).1.chain'

/-- C4: in one iteration of the batch loop with a positive
validation_interval, if step % validation_interval == 0 the loop runs a
validation pass, feeds the returned validation loss vloss step to the
LR scheduler, and appends exactly one checkpoint whose file name is
checkpointSavePath (derived from the experiment name and the step) and
which stores the updated best loss; if step % validation_interval != 0
the iteration only advances the step counter and saves nothing. -/
theorem validation_checkpoint_trigger (vi : Nat) (dir name : String) (epoch : Nat)
    (vloss : Nat → ℚ) (s : LoopState) (hvi : 0 < vi) :
    (s.step % vi = 0 →
      processBatch vi dir name epoch vloss s =
        { s with
          step := s.step + 1
          best_loss := min (vloss s.step) s.best_loss
          schedCalls := s.schedCalls ++ [vloss s.step]
          saved := s.saved ++ [(checkpointSavePath dir name s.step,
            mkSavedCheckpoint s.step epoch s.modelState
              (min (vloss s.step) s.best_loss) s.optimState)] }) ∧
    (¬ s.step % vi = 0 →
      processBatch vi dir name epoch vloss s = { s with step := s.step + 1 }) := by
  constructor <;> intro h <;> simp [processBatch, h]

/-- Witness for C4 at vi = 5 and the fresh initial loop state. -/
theorem validation_checkpoint_trigger_witness :
    0 < 5 ∧
    (((initLoopState freshResume).step % 5 = 0 →
       processBatch 5 "d" "e" 0 (fun k => 2) (initLoopState freshResume) =
         { initLoopState freshResume with
           step := 1
           best_loss := min 2 999
           schedCalls := [2]
           saved := [(checkpointSavePath "d" "e" 0,
                      mkSavedCheckpoint 0 0 0 (min 2 999) 0)] }) ∧
     (¬ (initLoopState freshResume).step % 5 = 0 →
       processBatch 5 "d" "e" 0 (fun k => 2) (initLoopState freshResume) =
         { initLoopState freshResume with step := 1 })) :=
  ⟨by decide,
   validation_checkpoint_trigger 5 "d" "e" 0 (fun k => 2) (initLoopState freshResume)
     (by decide)⟩

/-- C10: with validation_interval >= 1, the very first processed batch of
a run (step counter 0) triggers a validation pass and a checkpoint save,
because 0 % validation_interval == 0. -/
theorem first_batch_validates (vi : Nat) (dir name : String) (epoch : Nat)
    (vloss : Nat → ℚ) (r : ResumeOutcome) (hvi : 1 ≤ vi) :
    (processBatch vi dir name epoch vloss (initLoopState r)).saved =
      [(checkpointSavePath dir name 0,
        mkSavedCheckpoint 0 epoch (r.model_state.getD 0)
          (min (vloss 0) r.best_loss) (r.optimizer_state.getD 0))] ∧
    (processBatch vi dir name epoch vloss (initLoopState r)).schedCalls = [vloss 0] := by
  unfold processBatch initLoopState
  simp

/-- Witness for C10 at vi = 5 and a fresh run. -/
theorem first_batch_validates_witness :
    1 ≤ 5 ∧
    ((processBatch 5 "d" "e" 0 (fun k => 2) (initLoopState freshResume)).saved =
      [(checkpointSavePath "d" "e" 0,
        mkSavedCheckpoint 0 0 0 (min 2 999) 0)] ∧
     (processBatch 5 "d" "e" 0 (fun k => 2) (initLoopState freshResume)).schedCalls = [2]) :=
  ⟨by decide,
   first_batch_validates 5 "d" "e" 0 (fun k => 2) freshResume (by decide)⟩

/-- C9: every checkpoint record saved by a training run stores
arch = "ResUnet" (the literal string at train.py line 197), whatever
model the RESNET_PLUS_PLUS configuration flag selected — including a run
whose model is ResUnetPlusPlus. -/
theorem saved_arch_always_resunet (hp : TrainConfig) (num_epochs : Nat)
    (resume name : String) (fs : FileSystem) (vloss : Nat → ℚ) (nBatches : Nat)
    (mdl : ModelKind) (st : LoopState)
    (h : mainTrain hp num_epochs resume name fs vloss nBatches = .ok (mdl, st)) :
    ∀ p ∈ st.saved, p.2.arch = some "ResUnet" := by
  unfold mainTrain at h
  cases htr : trainResume fs resume with
  | error e => rw [htr] at h; exact absurd h (by simp)
  | ok r =>
    rw [htr] at h
    simp only [Except.ok.injEq, Prod.mk.injEq] at h
    rw [← h.2]
    exact archInv_runTraining hp.validation_interval (hp.checkpoints ++ "/" ++ name)
      name r.start_epoch num_epochs vloss nBatches r

/-- Final loop state of the one-epoch, one-batch witness run used for
C9: validation_interval 1, fresh start, validation loss 2. -/
def stW9 : LoopState :=
  { step := 1, best_loss := 2, modelState := 0, optimState := 0, schedCalls := [2],
    saved := [("c/e/e_checkpoint_0000.pt", mkSavedCheckpoint 0 0 0 2 0)] }

/-- Witness for C9: a run with RESNET_PLUS_PLUS = true (model
ResUnetPlusPlus) still writes arch = "ResUnet". -/
theorem saved_arch_always_resunet_witness :
    ("c/e/e_checkpoint_0000.pt", mkSavedCheckpoint 0 0 0 2 0).2.arch = some "ResUnet" :=
  saved_arch_always_resunet ⟨1, "c", true⟩ 1 "" "e" ⟨[]⟩ (fun k => 2) 1
    .resUnetPlusPlus stW9 (by decide) _ (by decide)

/-- A file system holding one checkpoint whose stored step is 40. -/
def fs40 : FileSystem :=
  ⟨[("ckpt.pt", { step := some 40, epoch := some 2, arch := some "ResUnet",
                  state_dict := some 11, best_loss := some 7, optimizer := some 13 })]⟩

/-- C1 (code bug): resuming from a checkpoint whose stored step is 40
restores epoch, best_loss and the two state blobs, but the stored step
key is never read and train.py line 134 sets step = 0 unconditionally,
so the first step counter value after resume is 0 — not 41 — and the
first checkpoint written by the resumed run records step 0.  The
best_loss half of the claim does hold: the in-memory best_loss equals
the persisted value 7 exactly (here the run validation loss is 9, so
min(9, 7) keeps it at 7). -/
theorem resume_restarts_step_at_zero :
    trainResume fs40 "ckpt.pt" =
      .ok { start_epoch := 2, best_loss := 7,
            model_state := some 11, optimizer_state := some 13 } ∧
    mainTrain ⟨1, "c", false⟩ 3 "ckpt.pt" "e" fs40 (fun k => 9) 1 =
      .ok (.resUnet,
        { step := 1, best_loss := 7, modelState := 11, optimState := 13,
          schedCalls := [9],
          saved := [("c/e/e_checkpoint_0000.pt",
                     mkSavedCheckpoint 0 2 11 7 13)] }) := by
  constructor <;> decide

/-- C2 counterexample: with the non-empty resume path "missing.pt" over a
file system holding no such file, the training entry point does not
abort: it returns normally having trained from the fresh initial state
(best_loss starts at 999 and the run writes its first checkpoint as if
no resume had been requested). -/
theorem missing_checkpoint_not_fatal :
    mainTrain ⟨1, "c", false⟩ 1 "missing.pt" "e" ⟨[]⟩ (fun k => 3) 1 =
      .ok (.resUnet,
        { step := 1, best_loss := 3, modelState := 0, optimState := 0,
          schedCalls := [3],
          saved := [("c/e/e_checkpoint_0000.pt",
                     mkSavedCheckpoint 0 0 0 3 0)] }) := by
  decide

/-- C2 amended: if the resume path is non-empty but no checkpoint file
exists there, train.py lines 85-86 only print a message; the run
continues from the fresh starting parameters (start_epoch 0, best_loss
999, freshly initialised model and optimizer) instead of aborting. -/
theorem missing_checkpoint_continues_fresh (hp : TrainConfig) (num_epochs : Nat)
    (resume name : String) (fs : FileSystem) (vloss : Nat → ℚ) (nBatches : Nat)
    (hne : ¬ resume = "") (habs : fs.lookup resume = none) :
    mainTrain hp num_epochs resume name fs vloss nBatches =
      .ok (selectModel hp.RESNET_PLUS_PLUS,
           runTraining hp.validation_interval (hp.checkpoints ++ "/" ++ name) name
             0 num_epochs vloss nBatches freshResume) := by
  unfold mainTrain trainResume
  simp [hne, habs, freshResume]

/-- Witness for the amended C2 at the path "nope.pt" over an empty file
system. -/
theorem missing_checkpoint_continues_fresh_witness :
    (¬ "nope.pt" = "") ∧ (⟨[]⟩ : FileSystem).lookup "nope.pt" = none ∧
    mainTrain ⟨2, "c", false⟩ 1 "nope.pt" "e" ⟨[]⟩ (fun k => 4) 1 =
      .ok (selectModel false,
           runTraining 2 ("c" ++ "/" ++ "e") "e" 0 1 (fun k => 4) 1 freshResume) :=
  ⟨by decide, by decide,
   missing_checkpoint_continues_fresh ⟨2, "c", false⟩ 1 "nope.pt" "e" ⟨[]⟩
     (fun k => 4) 1 (by decide) (by decide)⟩

/-- A persisted checkpoint record that lacks the epoch key but has every
other key in place. -/
def ckptNoEpoch : StoredCheckpoint :=
  { step := some 10, epoch := none, arch := some "ResUnet",
    state_dict := some 3, best_loss := some 2, optimizer := some 4 }

/-- A file system holding the epoch-less checkpoint at "m.pt". -/
def fsNoEpoch : FileSystem := ⟨[("m.pt", ckptNoEpoch)]⟩

/-- C6 counterexample: on a checkpoint record that lacks the epoch key,
the evaluation loader succeeds (eval.py line 127 uses
checkpoint.get("epoch", "N/A")), but the training-resume loader fails
with KeyError: train.py line 75 reads checkpoint["epoch"] directly.  So
it is not the case that every reader tolerates an absent epoch field. -/
theorem train_resume_fails_without_epoch :
    trainResume fsNoEpoch "m.pt" = .error (.keyError "epoch") ∧
    evalLoadCheckpoint fsNoEpoch "m.pt" = .ok (3, "N/A") := by
  constructor <;> decide

/-- C6 amended: of the two checkpoint readers, only the evaluation
loader tolerates an absent epoch key (displaying "N/A"); the
training-resume loader raises KeyError("epoch") on any such record. -/
theorem epoch_tolerance_eval_only (fs : FileSystem) (path : String)
    (checkpoint : StoredCheckpoint) (sd : Nat)
    (hpath : ¬ path = "") (hlk : fs.lookup path = some checkpoint)
    (hep : checkpoint.epoch = none) (hsd : checkpoint.state_dict = some sd) :
    evalLoadCheckpoint fs path = .ok (sd, "N/A") ∧
    trainResume fs path = .error (.keyError "epoch") := by
  constructor
  · simp [evalLoadCheckpoint, hlk, hsd, hep, dictGet, Bind.bind, Except.bind]
  · simp [trainResume, hpath, hlk, hep, dictGet, Bind.bind, Except.bind]

/-- Witness for the amended C6 at the concrete epoch-less record. -/
theorem epoch_tolerance_eval_only_witness :
    (¬ "m.pt" = "") ∧ fsNoEpoch.lookup "m.pt" = some ckptNoEpoch ∧
    ckptNoEpoch.epoch = none ∧ ckptNoEpoch.state_dict = some 3 ∧
    (evalLoadCheckpoint fsNoEpoch "m.pt" = .ok (3, "N/A") ∧
     trainResume fsNoEpoch "m.pt" = .error (.keyError "epoch")) :=
  ⟨by decide, by decide, by decide, by decide,
   epoch_tolerance_eval_only fsNoEpoch "m.pt" ckptNoEpoch 3
     (by decide) (by decide) (by decide) (by decide)⟩

/-- C7: an evaluation run whose batches contribute zero samples (and
zero pixels) makes eval.py line 93 divide by num_samples == 0, which in
Python raises ZeroDivisionError: the run fails with a signalled error
instead of silently producing NaN. -/
theorem zero_samples_raises (batches : List EvalBatch) (folder : String)
    (hs : (batches.foldl accumBatch {}).num_samples = 0)
    (hp : (batches.foldl accumBatch {}).pixel_total = 0) :
    evaluate batches folder = .error .zeroDivisionError := by
  unfold evaluate
  simp [pyDiv, hs, Bind.bind, Except.bind]

/-- Witness for C7 at the empty test set. -/
theorem zero_samples_raises_witness :
    (([] : List EvalBatch).foldl accumBatch {}).num_samples = 0 ∧
    (([] : List EvalBatch).foldl accumBatch {}).pixel_total = 0 ∧
    evaluate [] "out" = .error .zeroDivisionError :=
  ⟨by decide, by decide, zero_samples_raises [] "out" (by decide) (by decide)⟩

/-- C8 counterexample: train.py line 67 initialises best_loss to 999,
not to positive infinity, so a first validation loss of magnitude 1000
does not become the new best_loss: after the first validation round of a
fresh run with validation loss 1000, best_loss is min(1000, 999) = 999,
not 1000. -/
theorem init_best_loss_not_infinite :
    freshResume.best_loss = 999 ∧
    (processBatch 1 "d" "e" 0 (fun k => 1000) (initLoopState freshResume)).best_loss = 999 ∧
    ¬ (processBatch 1 "d" "e" 0 (fun k => 1000) (initLoopState freshResume)).best_loss = 1000 := by
  refine ⟨by decide, by decide, by decide⟩

/-- C8 amended: at the start of every non-resumed training run best_loss
is initialised to 999, so the first validation loss becomes the new
best_loss exactly when it does not exceed 999. -/
theorem first_validation_becomes_best_below_999 (vi : Nat) (dir name : String)
    (epoch : Nat) (vloss : Nat → ℚ) (hv : vloss 0 ≤ 999) :
    freshResume.best_loss = 999 ∧
    (processBatch vi dir name epoch vloss (initLoopState freshResume)).best_loss = vloss 0 := by
  refine ⟨rfl, ?_⟩
  unfold processBatch initLoopState freshResume
  simp [min_eq_left hv]

/-- Witness for the amended C8 with a first validation loss of 7. -/
theorem first_validation_becomes_best_below_999_witness :
    ((7:ℚ) ≤ 999) ∧
    (freshResume.best_loss = 999 ∧
     (processBatch 1 "d" "e" 0 (fun k => 7) (initLoopState freshResume)).best_loss = 7) :=
  ⟨by decide,
   first_validation_becomes_best_below_999 1 "d" "e" 0 (fun k => 7) (by decide)⟩

/-- C5 (code bug): the visualization filename index at eval.py line 90
is batch_idx * inputs.size(0) + i, computed from the size of the CURRENT
batch, so when the final batch is smaller the indices collide with
earlier ones.  Over a test set delivered as a full batch of 2 samples
followed by a final batch of 1 sample, the run writes the distinct pairs
(batch 0, sample 1) and (batch 1, sample 0) both to "r/sample_1.png":
the produced filename list has a duplicate, contradicting the uniqueness
the code itself claims in its comment at line 89. -/
theorem visualization_filenames_collide :
    evaluate [⟨2, 1, 1, 4, 4⟩, ⟨1, 1, 1, 2, 2⟩] "r" =
      .ok (1, 1, 1, ["r/sample_0.png", "r/sample_1.png", "r/sample_1.png"]) ∧
    ¬ (["r/sample_0.png", "r/sample_1.png", "r/sample_1.png"] : List String).Nodup ∧
    batchFilenames "r" 0 2 = ["r/sample_0.png", "r/sample_1.png"] ∧
    batchFilenames "r" 1 1 = ["r/sample_1.png"] := by
  refine ⟨?_, by decide, by decide, by decide⟩
  unfold evaluate
  norm_num [accumBatch, pyDiv, batchFilenames, Bind.bind, Except.bind,
    List.enum, List.enumFrom, List.range_succ]
  exact ⟨by decide, by decide⟩

end PolypSeg
